import Mathlib

/-!
Verification development for the triage-ai edge function (src/index.ts).

The service is modelled as pure functions over an explicit environment:
the AI gateway's HTTP response, the storage download result and the
database insert result are parameters.  JavaScript values that the code
inspects dynamically (the `patient` payload and the model's tool-call
arguments) are modelled by the inductive type `JVal`, with JavaScript
truthiness, property access and stringification made explicit.

Conventions of the embedding:
* A thrown JavaScript `Error` is modelled as `Except.error msg` carrying
  the error's `.message` string, since the top-level handler only ever
  consults `e.message`.  Messages of built-in TypeErrors are approximated
  (they contain neither "Rate limit" nor "Payment", which is all the
  status mapping looks at).
* `response.json()` of a successful gateway call is abstracted to the
  part the handlers read: the optional chain
  `choices?.[0]?.message?.tool_calls?.[0]` collapses to an `Option`
  (`none` when any link is missing), and `JSON.parse` of the tool call's
  `function.arguments` string is represented by its outcome,
  `Except String JVal`.
* JavaScript numbers are modelled as integers; the claims only depend on
  zero versus non-zero and on presence, never on fractional values.
* Bytes handed to `btoa` come from a `Uint8Array`, hence are below 256.
-/

/-- JavaScript runtime values, as far as src/index.ts inspects them. -/
inductive JVal where
  | undefined : JVal
  | null : JVal
  | bool : Bool → JVal
  | num : Int → JVal
  | str : String → JVal
  | arr : List JVal → JVal
  | obj : List (String × JVal) → JVal

/-- JavaScript truthiness: `undefined`, `null`, `false`, `0` and `""` are
falsy; every array and object is truthy. -/
def JVal.truthy : JVal → Bool
  | .undefined => false
  | .null => false
  | .bool b => b
  | .num n => n != 0
  | .str s => s != ""
  | .arr _ => true
  | .obj _ => true

def JVal.isUndef : JVal → Bool
  | .undefined => true
  | _ => false

/-- Property access `v.k`: a missing key on an object, or any key on a
primitive (which JavaScript boxes), yields `undefined`.  (Access on
`null`/`undefined` throws in JavaScript; call sites that can hit that
case model the throw explicitly.) -/
def JVal.get (v : JVal) (k : String) : JVal :=
  match v with
  | .obj fs => (fs.lookup k).getD JVal.undefined
  | _ => JVal.undefined

/-- The optional-chain property read `v?.length`: `undefined` on
`null`/`undefined`, an array's or string's length, or the `length` key
of an object. -/
def lengthProp : JVal → JVal
  | .undefined => JVal.undefined
  | .null => JVal.undefined
  | .arr xs => JVal.num xs.length
  | .str s => JVal.num s.length
  | .obj fs => (fs.lookup "length").getD JVal.undefined
  | _ => JVal.undefined

/-- JavaScript `a || b`. -/
def jsOr (a b : JVal) : JVal :=
  if a.truthy then a else b

mutual

/-- JavaScript `String(v)` / template-literal interpolation. -/
def JVal.toJSString : JVal → String
  | .undefined => "undefined"
  | .null => "null"
  | .bool b => if b then "true" else "false"
  | .num n => toString n
  | .str s => s
  | .arr xs => String.intercalate "," (jvalListStrings xs)
  | .obj _ => "[object Object]"

def jvalListStrings : List JVal → List String
  | [] => []
  | v :: vs => JVal.toJSString v :: jvalListStrings vs

end

/-- One element's contribution to `Array.prototype.join`: `null` and
`undefined` elements become the empty string. -/
def jsJoinElem (v : JVal) : String :=
  match v with
  | .undefined => ""
  | .null => ""
  | _ => v.toJSString

/-- `v.join(sep)`, including the TypeErrors thrown when `v` is not an
array. -/
def jsJoinE (v : JVal) (sep : String) : Except String String :=
  match v with
  | .undefined => Except.error "Cannot read properties of undefined (reading join)"
  | .null => Except.error "Cannot read properties of null (reading join)"
  | .arr xs => Except.ok (String.intercalate sep (xs.map jsJoinElem))
  | _ => Except.error "join is not a function"

/-- `pat` starts the list `s`. -/
def startsWithL : List Char → List Char → Bool
  | [], _ => true
  | _ :: _, [] => false
  | a :: as, b :: bs => a == b && startsWithL as bs

/-- `pat` occurs somewhere in `s`. -/
def listHasInfix (pat : List Char) : List Char → Bool
  | [] => pat.isEmpty
  | c :: rest => startsWithL pat (c :: rest) || listHasInfix pat rest

/-- JavaScript `s.endsWith(suf)`: `suf` is a suffix of `s`. -/
def jsEndsWith (s suf : String) : Bool :=
  startsWithL suf.data.reverse s.data.reverse

/-- JavaScript `s.includes(pat)`. -/
def jsIncludes (s pat : String) : Bool :=
  listHasInfix pat.data s.data

/-- The AI gateway's HTTP response, abstracted to what `callAI` and the
handlers read: the status code, and the outcome of
`JSON.parse(result.choices?.[0]?.message?.tool_calls?.[0].function.arguments)`
(`none` when the optional chain finds no tool call). -/
structure FetchResponse where
  status : Nat
  toolCall : Option (Except String JVal)

/-- `response.ok`: status in the 2xx range. -/
def FetchResponse.ok (r : FetchResponse) : Bool :=
  200 ≤ r.status && r.status < 300

/-- `callAI` (src/index.ts lines 14-40): on a non-ok response it throws
"Rate limit exceeded" for 429, "Payment required" for 402, and
"AI error: <status>" otherwise; on an ok response it returns the parsed
body (abstracted to the tool-call slot). -/
def callAI (r : FetchResponse) : Except String (Option (Except String JVal)) :=
  if r.ok then Except.ok r.toolCall
  else if r.status = 429 then Except.error "Rate limit exceeded"
  else if r.status = 402 then Except.error "Payment required"
  else Except.error ("AI error: " ++ toString r.status)

/-- The fixed, unconditional part of the triage prompt
(src/index.ts lines 43-48), up to and including the symptoms line. -/
def triageHeader (p : JVal) (symStr : String) : String :=
  "You are a medical triage AI. Analyze the following patient data and classify their risk level, recommend a department, and explain your reasoning.\n\nPatient Data:\n- Age: "
    ++ (p.get "age").toJSString
    ++ "\n- Gender: " ++ (p.get "gender").toJSString
    ++ "\n- Symptoms: " ++ symStr

/-- Line 49: `${patient.symptoms_text ? `- Additional symptoms: ...` : ""}`. -/
def addlPiece (p : JVal) : String :=
  let v := p.get "symptoms_text"
  if v.truthy then "- Additional symptoms: " ++ v.toJSString else ""

/-- Line 50: the optional blood-pressure line. -/
def bpPiece (p : JVal) : String :=
  let v := p.get "blood_pressure"
  if v.truthy then "- Blood Pressure: " ++ v.toJSString else ""

/-- Line 51: the optional heart-rate line. -/
def hrPiece (p : JVal) : String :=
  let v := p.get "heart_rate"
  if v.truthy then "- Heart Rate: " ++ v.toJSString ++ " bpm" else ""

/-- Line 52: the optional temperature line (the source file literally
contains the mis-encoded degree sign "Â°"). -/
def tempPiece (p : JVal) : String :=
  let v := p.get "temperature"
  if v.truthy then "- Temperature: " ++ v.toJSString ++ "Â°F" else ""

/-- Line 53: `${patient.pre_existing_conditions?.length ? `- Pre-existing
Conditions: ${patient.pre_existing_conditions.join(", ")}` : ""}`.  The
join can itself throw when the value has a truthy `length` but is not an
array. -/
def pecPieceE (p : JVal) : Except String String :=
  let v := p.get "pre_existing_conditions"
  if (lengthProp v).truthy then
    (jsJoinE v ", ").map (fun j => "- Pre-existing Conditions: " ++ j)
  else
    Except.ok ""

/-- The triage prompt template literal (src/index.ts lines 43-55).
`patient.symptoms.join(", ")` is evaluated first and can throw; the
optional lines leave an empty line behind when their condition is falsy. -/
def triagePrompt (p : JVal) : Except String String := do
  let symStr ← jsJoinE (p.get "symptoms") ", "
  let pecStr ← pecPieceE p
  Except.ok (triageHeader p symStr
    ++ "\n" ++ addlPiece p
    ++ "\n" ++ bpPiece p
    ++ "\n" ++ hrPiece p
    ++ "\n" ++ tempPiece p
    ++ "\n" ++ pecStr
    ++ "\n\nProvide your analysis using the triage_result function.")

/-- `handleTriage` (src/index.ts lines 42-101): build the prompt, call
the gateway, fail if no tool call came back, otherwise return the parsed
tool-call arguments. -/
def handleTriage (p : JVal) (gw : FetchResponse) : Except String JVal := do
  let _prompt ← triagePrompt p
  let tc ← callAI gw
  match tc with
  | none => Except.error "AI did not return structured triage result"
  | some (Except.error e) => Except.error e
  | some (Except.ok args) => Except.ok args

/-- Line 115: mime type inferred from the file-name suffix alone. -/
def mimeTypeOf (filePath : String) : String :=
  if jsEndsWith filePath ".pdf" then "application/pdf" else "image/jpeg"

/-- The base64 alphabet. -/
def base64Chars : String :=
  "ABCDEFGHIJKLMNOPQRSTUVWXYZabcdefghijklmnopqrstuvwxyz0123456789+/"

def b64c (n : Nat) : Char :=
  base64Chars.data.getD n 'A'

/-- `btoa(String.fromCharCode(...bytes))` (line 114); bytes are below 256. -/
def btoa : List Nat → String
  | [] => ""
  | [a] =>
    String.mk [b64c (a / 4 % 64), b64c (a % 4 * 16), '=', '=']
  | [a, b] =>
    String.mk [b64c (a / 4 % 64), b64c (a % 4 * 16 + b / 16), b64c (b % 16 * 4), '=']
  | a :: b :: c :: rest =>
    String.mk [b64c (a / 4 % 64), b64c (a % 4 * 16 + b / 16),
               b64c (b % 16 * 4 + c / 64), b64c (c % 64)]
      ++ btoa rest

/-- The data URL of line 147: `data:${mimeType};base64,${base64}`. -/
def dataUrlOf (filePath : String) (bytes : List Nat) : String :=
  "data:" ++ mimeTypeOf filePath ++ ";base64," ++ btoa bytes

/-- The instruction text of line 117. -/
def parseDocPromptText : String :=
  "Extract structured patient medical data from this document. Look for: age, gender, symptoms, blood pressure, heart rate, temperature, and pre-existing conditions."

/-- The multi-part user-message content sent to the gateway by
`handleParseDocument` (src/index.ts lines 145-148). -/
def parseDocContent (filePath : String) (bytes : List Nat) : JVal :=
  JVal.arr
    [ JVal.obj [("type", JVal.str "text"), ("text", JVal.str parseDocPromptText)],
      JVal.obj [("type", JVal.str "image_url"),
                ("image_url", JVal.obj [("url", JVal.str (dataUrlOf filePath bytes))])] ]

/-- `handleParseDocument` (src/index.ts lines 103-159).  `download` is the
storage result (`supabase.storage.download`); its error is rethrown.  The
result pairs the content sent to the gateway with the handler's return
value; a missing tool call yields `{parsed: null}` as a success. -/
def handleParseDocument (filePath : String) (download : Except String (List Nat))
    (gw : FetchResponse) : Except String (JVal × JVal) := do
  let bytes ← download
  let content := parseDocContent filePath bytes
  let tc ← callAI gw
  match tc with
  | none => Except.ok (content, JVal.obj [("parsed", JVal.null)])
  | some (Except.error e) => Except.error e
  | some (Except.ok args) => Except.ok (content, JVal.obj [("parsed", args)])

/-- The row built for each model-returned patient by the bulk insert
(src/index.ts lines 225-238): `||` defaults the vitals to `null` and the
conditions to `[]`. -/
def rowOf (p : JVal) : JVal :=
  JVal.obj
    [ ("age", p.get "age"),
      ("gender", p.get "gender"),
      ("symptoms", p.get "symptoms"),
      ("blood_pressure", jsOr (p.get "blood_pressure") JVal.null),
      ("heart_rate", jsOr (p.get "heart_rate") JVal.null),
      ("temperature", jsOr (p.get "temperature") JVal.null),
      ("pre_existing_conditions", jsOr (p.get "pre_existing_conditions") (JVal.arr [])),
      ("risk_level", p.get "risk_level"),
      ("confidence_score", p.get "confidence_score"),
      ("recommended_department", p.get "recommended_department"),
      ("contributing_factors", p.get "contributing_factors"),
      ("ai_explanation", p.get "ai_explanation") ]

/-- One evaluation of the map callback of lines 225-238: reading `p.age`
on a `null` or `undefined` array element throws a TypeError; every other
element is boxed and yields the defaulted row `rowOf p`. -/
def rowOfE (p : JVal) : Except String JVal :=
  match p with
  | JVal.null => Except.error "Cannot read properties of null (reading age)"
  | JVal.undefined => Except.error "Cannot read properties of undefined (reading age)"
  | _ => Except.ok (rowOf p)

/-- `Array.prototype.map` with a callback that can throw: elements are
processed left to right and the first throw propagates. -/
def jsMapE (f : JVal → Except String JVal) : List JVal → Except String (List JVal)
  | [] => Except.ok []
  | p :: rest =>
    match f p with
    | Except.error e => Except.error e
    | Except.ok r =>
      match jsMapE f rest with
      | Except.error e => Except.error e
      | Except.ok rs => Except.ok (r :: rs)

/-- `handleGenerateSynthetic` (src/index.ts lines 161-243).  `insertErr`
is the `error` field of the database insert, rethrown when present.
Building the rows (`patients.map(...)`) evaluates the callback per
element and throws on a `null`/`undefined` element, before any insert
takes place.  On success the result pairs the list of inserted rows with
the returned `{success: true, count: patients.length}` object. -/
def handleGenerateSynthetic (gw : FetchResponse) (insertErr : Option String) :
    Except String (List JVal × JVal) := do
  let tc ← callAI gw
  match tc with
  | none => Except.error "Failed to generate synthetic data"
  | some (Except.error e) => Except.error e
  | some (Except.ok args) =>
    match args with
    | JVal.null => Except.error "Cannot destructure property patients of null"
    | JVal.undefined => Except.error "Cannot destructure property patients of undefined"
    | _ =>
      match args.get "patients" with
      | JVal.arr ps =>
        match jsMapE rowOfE ps with
        | Except.error e => Except.error e
        | Except.ok rows =>
          match insertErr with
          | some e => Except.error e
          | none =>
            Except.ok (rows, JVal.obj [("success", JVal.bool true),
                                       ("count", JVal.num ps.length)])
      | JVal.undefined => Except.error "Cannot read properties of undefined (reading map)"
      | _ => Except.error "patients.map is not a function"

/-- The fields the serve handler destructures from the request body
(line 251).  `action` is modelled as a string (the dispatch only compares
it against string literals and interpolates it into the error message). -/
structure ServeRequest where
  action : String
  patient : JVal
  filePath : String

/-- The external world of one invocation: the gateway response, the
storage download result and the database insert error. -/
structure Env where
  gw : FetchResponse
  download : Except String (List Nat)
  insertErr : Option String

structure HttpResponse where
  status : Nat
  body : JVal

/-- Line 273: `e.message?.includes("Rate limit") ? 429 :
e.message?.includes("Payment") ? 402 : 500`. -/
def statusFromError (msg : String) : Nat :=
  if jsIncludes msg "Rate limit" then 429
  else if jsIncludes msg "Payment" then 402
  else 500

/-- The `switch (action)` dispatch of lines 254-266. -/
def dispatch (req : ServeRequest) (env : Env) : Except String JVal :=
  if req.action = "triage" then
    handleTriage req.patient env.gw
  else if req.action = "parse-document" then
    Except.map Prod.snd (handleParseDocument req.filePath env.download env.gw)
  else if req.action = "generate-synthetic" then
    Except.map Prod.snd (handleGenerateSynthetic env.gw env.insertErr)
  else
    Except.error ("Unknown action: " ++ req.action)

/-- The serve handler (src/index.ts lines 245-279): a successful dispatch
is returned with the default status 200; a thrown error becomes
`{error: message}` with the substring-derived status. -/
def serveHandler (req : ServeRequest) (env : Env) : HttpResponse :=
  match dispatch req env with
  | Except.ok v => { status := 200, body := v }
  | Except.error m =>
    { status := statusFromError m, body := JVal.obj [("error", JVal.str m)] }

/-- The concrete patient used to refute C4 as stated: its `heart_rate`
key is present with the value `0`. -/
def cexPatient : JVal :=
  JVal.obj [("age", JVal.num 30), ("gender", JVal.str "F"),
            ("symptoms", JVal.arr [JVal.str "cough"]),
            ("heart_rate", JVal.num 0)]

theorem startsWithL_refl (l : List Char) : startsWithL l l = true := by
  induction l with
  | nil => rfl
  | cons a as ih => simp [startsWithL, ih]

theorem listHasInfix_suffix (pre pat : List Char) :
    listHasInfix pat (pre ++ pat) = true := by
  induction pre with
  | nil =>
    cases pat with
    | nil => rfl
    | cons c cs => simp [listHasInfix, startsWithL_refl]
  | cons x xs ih => simp [listHasInfix, ih]

theorem jsIncludes_append_self (s pat : String) :
    jsIncludes (s ++ pat) pat = true := by
  simp [jsIncludes, String.data_append, listHasInfix_suffix]

/-- C6: on every non-2xx gateway response `callAI` fails; 429 and 402 map
to their own distinguished error messages (which differ), and every other
non-2xx status maps to the generic upstream error, whose message contains
the numeric status code. -/
theorem callAI_non2xx (r : FetchResponse) (hok : r.ok = false) :
    (r.status = 429 → callAI r = Except.error "Rate limit exceeded")
    ∧ (r.status = 402 → callAI r = Except.error "Payment required")
    ∧ (r.status ≠ 429 → r.status ≠ 402 →
        callAI r = Except.error ("AI error: " ++ toString r.status)
        ∧ jsIncludes ("AI error: " ++ toString r.status) (toString r.status) = true)
    ∧ ("Rate limit exceeded" : String) ≠ "Payment required" := by
  refine ⟨fun h => by simp [callAI, hok, h],
          fun h => by simp [callAI, hok, h],
          fun h1 h2 => ⟨by simp [callAI, hok, h1, h2], jsIncludes_append_self _ _⟩,
          by decide⟩

theorem callAI_non2xx_witness :
    callAI ⟨404, none⟩ = Except.error ("AI error: " ++ toString (404 : Nat))
    ∧ callAI ⟨429, none⟩ = Except.error "Rate limit exceeded"
    ∧ callAI ⟨402, none⟩ = Except.error "Payment required" :=
  ⟨((callAI_non2xx ⟨404, none⟩ (by decide)).2.2.1 (by decide) (by decide)).1,
   (callAI_non2xx ⟨429, none⟩ (by decide)).1 rfl,
   (callAI_non2xx ⟨402, none⟩ (by decide)).2.1 rfl⟩

/-- C7: the mime type in the data URL sent by the document-parse handler
is `application/pdf` exactly when the file path ends in ".pdf" and
`image/jpeg` for every other path; the URL embeds that mime type and the
base64-encoded bytes, and a successful handler run sends exactly this
content for the downloaded bytes. -/
theorem parseDoc_mime (fp : String) (bytes : List Nat) :
    (mimeTypeOf fp = "application/pdf" ↔ jsEndsWith fp ".pdf" = true)
    ∧ (jsEndsWith fp ".pdf" = false → mimeTypeOf fp = "image/jpeg")
    ∧ dataUrlOf fp bytes = "data:" ++ mimeTypeOf fp ++ ";base64," ++ btoa bytes
    ∧ (∀ gw res, handleParseDocument fp (Except.ok bytes) gw = Except.ok res →
        res.1 = parseDocContent fp bytes) := by
  refine ⟨?_, fun h => by simp [mimeTypeOf, h], rfl, ?_⟩
  · constructor
    · intro h
      by_cases he : jsEndsWith fp ".pdf" = true
      · exact he
      · simp [mimeTypeOf, he] at h
    · intro h
      simp [mimeTypeOf, h]
  · intro gw res h
    cases htc : callAI gw with
    | error e =>
      simp [handleParseDocument, Bind.bind, Except.bind, htc] at h
    | ok tc =>
      cases tc with
      | none =>
        simp [handleParseDocument, Bind.bind, Except.bind, htc] at h
        rw [← h]
      | some a =>
        cases a with
        | error e =>
          simp [handleParseDocument, Bind.bind, Except.bind, htc] at h
        | ok args =>
          simp [handleParseDocument, Bind.bind, Except.bind, htc] at h
          rw [← h]

theorem parseDoc_mime_witness :
    mimeTypeOf "scan.pdf" = "application/pdf"
    ∧ mimeTypeOf "photo.png" = "image/jpeg"
    ∧ dataUrlOf "scan.pdf" [72, 105] = "data:" ++ mimeTypeOf "scan.pdf" ++ ";base64," ++ btoa [72, 105] :=
  ⟨((parseDoc_mime "scan.pdf" []).1).mpr (by decide),
   (parseDoc_mime "photo.png" []).2.1 (by decide),
   (parseDoc_mime "scan.pdf" [72, 105]).2.2.1⟩

/-- C8: the top-level status mapping tests "Rate limit" before "Payment":
any caught message containing "Rate limit" yields 429 (even if it also
contains "Payment"), one containing "Payment" but not "Rate limit" yields
402, anything else 500; and every serve-handler response is either a 200
success or carries `{error: m}` with the status derived from `m` by this
mapping, whichever handler produced the error. -/
theorem topLevelStatus (msg : String) (req : ServeRequest) (env : Env) :
    (jsIncludes msg "Rate limit" = true → statusFromError msg = 429)
    ∧ (jsIncludes msg "Payment" = true → jsIncludes msg "Rate limit" = false →
        statusFromError msg = 402)
    ∧ (jsIncludes msg "Rate limit" = false → jsIncludes msg "Payment" = false →
        statusFromError msg = 500)
    ∧ ((serveHandler req env).status = 200
       ∨ ∃ m, (serveHandler req env).body = JVal.obj [("error", JVal.str m)]
            ∧ (serveHandler req env).status = statusFromError m) := by
  refine ⟨fun h => by simp [statusFromError, h],
          fun hp hr => by simp [statusFromError, hp, hr],
          fun hr hp => by simp [statusFromError, hr, hp],
          ?_⟩
  cases hd : dispatch req env with
  | ok v => exact Or.inl (by simp [serveHandler, hd])
  | error m =>
    exact Or.inr ⟨m, by simp [serveHandler, hd], by simp [serveHandler, hd]⟩

theorem topLevelStatus_witness :
    statusFromError "Rate limit hit; Payment also due" = 429
    ∧ statusFromError "Payment required" = 402
    ∧ statusFromError "AI error: 500" = 500 :=
  ⟨(topLevelStatus "Rate limit hit; Payment also due" ⟨"x", JVal.undefined, ""⟩
      ⟨⟨200, none⟩, Except.ok [], none⟩).1 (by decide),
   (topLevelStatus "Payment required" ⟨"x", JVal.undefined, ""⟩
      ⟨⟨200, none⟩, Except.ok [], none⟩).2.1 (by decide) (by decide),
   (topLevelStatus "AI error: 500" ⟨"x", JVal.undefined, ""⟩
      ⟨⟨200, none⟩, Except.ok [], none⟩).2.2.1 (by decide) (by decide)⟩

theorem statusFromError_rateLimit : statusFromError "Rate limit exceeded" = 429 := by
  decide

theorem statusFromError_payment : statusFromError "Payment required" = 402 := by
  decide

/-- C1: when the gateway responds successfully but without a tool call,
the triage handler fails (whatever the patient), the synthetic handler
fails with "Failed to generate synthetic data", and the document-parse
handler returns `{parsed: null}`, which the serve handler emits as a 200
success. -/
theorem noToolCall_behavior (p : JVal) (fp : String) (bytes : List Nat)
    (ie : Option String) (gw : FetchResponse)
    (hok : gw.ok = true) (htc : gw.toolCall = none) :
    (∃ m, handleTriage p gw = Except.error m)
    ∧ handleGenerateSynthetic gw ie = Except.error "Failed to generate synthetic data"
    ∧ handleParseDocument fp (Except.ok bytes) gw
        = Except.ok (parseDocContent fp bytes, JVal.obj [("parsed", JVal.null)])
    ∧ serveHandler ⟨"parse-document", p, fp⟩ ⟨gw, Except.ok bytes, ie⟩
        = ⟨200, JVal.obj [("parsed", JVal.null)]⟩ := by
  have hAI : callAI gw = Except.ok none := by
    simp [callAI, hok, htc]
  refine ⟨?_, ?_, ?_, ?_⟩
  · cases hpr : triagePrompt p with
    | error e =>
      exact ⟨e, by simp [handleTriage, Bind.bind, Except.bind, hpr]⟩
    | ok s =>
      exact ⟨"AI did not return structured triage result",
        by simp [handleTriage, Bind.bind, Except.bind, hpr, hAI]⟩
  · simp [handleGenerateSynthetic, Bind.bind, Except.bind, hAI]
  · simp [handleParseDocument, Bind.bind, Except.bind, hAI]
  · simp [serveHandler, dispatch, handleParseDocument, Bind.bind, Except.bind, hAI,
      Except.map]

theorem noToolCall_witness :
    handleGenerateSynthetic ⟨200, none⟩ none
      = Except.error "Failed to generate synthetic data"
    ∧ serveHandler ⟨"parse-document", JVal.undefined, "a.pdf"⟩
        ⟨⟨200, none⟩, Except.ok [], none⟩
      = ⟨200, JVal.obj [("parsed", JVal.null)]⟩ :=
  ⟨(noToolCall_behavior JVal.undefined "a.pdf" [] none ⟨200, none⟩ (by decide) rfl).2.1,
   (noToolCall_behavior JVal.undefined "a.pdf" [] none ⟨200, none⟩ (by decide) rfl).2.2.2⟩

/-- C2: whenever a handler reaches its AI-gateway call (the triage prompt
was built, the parse-document download succeeded), a 429 gateway status
surfaces as a 429 service response and a 402 as a 402, through the thrown
message and the top-level catch. -/
theorem gatewayStatusSurfaces (p : JVal) (fp : String) (bytes : List Nat)
    (ie : Option String) (gw : FetchResponse) (pr : String) :
    (gw.status = 429 →
      (triagePrompt p = Except.ok pr →
        (serveHandler ⟨"triage", p, fp⟩ ⟨gw, Except.ok bytes, ie⟩).status = 429)
      ∧ (serveHandler ⟨"parse-document", p, fp⟩ ⟨gw, Except.ok bytes, ie⟩).status = 429
      ∧ (serveHandler ⟨"generate-synthetic", p, fp⟩ ⟨gw, Except.ok bytes, ie⟩).status = 429)
    ∧ (gw.status = 402 →
      (triagePrompt p = Except.ok pr →
        (serveHandler ⟨"triage", p, fp⟩ ⟨gw, Except.ok bytes, ie⟩).status = 402)
      ∧ (serveHandler ⟨"parse-document", p, fp⟩ ⟨gw, Except.ok bytes, ie⟩).status = 402
      ∧ (serveHandler ⟨"generate-synthetic", p, fp⟩ ⟨gw, Except.ok bytes, ie⟩).status = 402) := by
  constructor
  · intro h429
    have hAI : callAI gw = Except.error "Rate limit exceeded" := by
      simp [callAI, FetchResponse.ok, h429]
    refine ⟨fun hpr => ?_, ?_, ?_⟩
    · simp [serveHandler, dispatch, handleTriage, Bind.bind, Except.bind, hpr, hAI,
        statusFromError_rateLimit]
    · simp [serveHandler, dispatch, handleParseDocument, Bind.bind, Except.bind, hAI,
        Except.map, statusFromError_rateLimit]
    · simp [serveHandler, dispatch, handleGenerateSynthetic, Bind.bind, Except.bind, hAI,
        Except.map, statusFromError_rateLimit]
  · intro h402
    have hAI : callAI gw = Except.error "Payment required" := by
      simp [callAI, FetchResponse.ok, h402]
    refine ⟨fun hpr => ?_, ?_, ?_⟩
    · simp [serveHandler, dispatch, handleTriage, Bind.bind, Except.bind, hpr, hAI,
        statusFromError_payment]
    · simp [serveHandler, dispatch, handleParseDocument, Bind.bind, Except.bind, hAI,
        Except.map, statusFromError_payment]
    · simp [serveHandler, dispatch, handleGenerateSynthetic, Bind.bind, Except.bind, hAI,
        Except.map, statusFromError_payment]

theorem gatewayStatusSurfaces_witness :
    (serveHandler ⟨"generate-synthetic", JVal.undefined, ""⟩
        ⟨⟨429, none⟩, Except.ok [], none⟩).status = 429
    ∧ (serveHandler ⟨"generate-synthetic", JVal.undefined, ""⟩
        ⟨⟨402, none⟩, Except.ok [], none⟩).status = 402
    ∧ (serveHandler ⟨"triage", JVal.obj [("symptoms", JVal.arr [])], ""⟩
        ⟨⟨429, none⟩, Except.ok [], none⟩).status = 429 :=
  ⟨((gatewayStatusSurfaces JVal.undefined "" [] none ⟨429, none⟩ "").1 rfl).2.2,
   ((gatewayStatusSurfaces JVal.undefined "" [] none ⟨402, none⟩ "").2 rfl).2.2,
   ((gatewayStatusSurfaces (JVal.obj [("symptoms", JVal.arr [])]) "" [] none ⟨429, none⟩
      ((triagePrompt (JVal.obj [("symptoms", JVal.arr [])])).toOption.getD "")).1 rfl).1
     (by rfl)⟩

theorem isUndef_eq {v : JVal} (h : v.isUndef = true) : v = JVal.undefined := by
  cases v <;> first | rfl | simp [JVal.isUndef] at h

theorem rowOfE_ok {p r : JVal} (h : rowOfE p = Except.ok r) : r = rowOf p := by
  cases p <;> simp [rowOfE] at h <;> exact h.symm

theorem jsMapE_rowOfE_ok : ∀ (xs ys : List JVal), jsMapE rowOfE xs = Except.ok ys →
    ys = xs.map rowOf ∧ ys.length = xs.length := by
  intro xs
  induction xs with
  | nil =>
    intro ys h
    simp [jsMapE] at h
    subst h
    simp
  | cons p rest ih =>
    intro ys h
    cases hp : rowOfE p with
    | error e => simp [jsMapE, hp] at h
    | ok r =>
      cases hrest : jsMapE rowOfE rest with
      | error e => simp [jsMapE, hp, hrest] at h
      | ok rs =>
        simp [jsMapE, hp, hrest] at h
        obtain ⟨h1, h2⟩ := ih rs hrest
        subst h
        simp [List.map, rowOfE_ok hp, h1, h2]

/-- C3: when the model returns a tool call whose arguments carry a
`patients` array, every element's row builds without a throw, and the
database insert succeeds, exactly one row per patient is inserted
(`rows = ps.map rowOf`, so `rows.length = ps.length`), the returned
count is the array's length, and each row defaults an absent vital to
`null` and absent conditions to the empty array. -/
theorem generateSynthetic_rows (gw : FetchResponse) (fs : List (String × JVal))
    (ps rows : List JVal)
    (hok : gw.ok = true)
    (htc : gw.toolCall = some (Except.ok (JVal.obj fs)))
    (hps : fs.lookup "patients" = some (JVal.arr ps))
    (hrows : jsMapE rowOfE ps = Except.ok rows) :
    handleGenerateSynthetic gw none
      = Except.ok (rows,
          JVal.obj [("success", JVal.bool true), ("count", JVal.num ps.length)])
    ∧ rows = ps.map rowOf
    ∧ rows.length = ps.length
    ∧ ∀ p : JVal,
        ((p.get "blood_pressure").isUndef = true →
          (rowOf p).get "blood_pressure" = JVal.null)
        ∧ ((p.get "heart_rate").isUndef = true →
          (rowOf p).get "heart_rate" = JVal.null)
        ∧ ((p.get "temperature").isUndef = true →
          (rowOf p).get "temperature" = JVal.null)
        ∧ ((p.get "pre_existing_conditions").isUndef = true →
          (rowOf p).get "pre_existing_conditions" = JVal.arr []) := by
  have hAI : callAI gw = Except.ok (some (Except.ok (JVal.obj fs))) := by
    simp [callAI, hok, htc]
  refine ⟨?_, (jsMapE_rowOfE_ok ps rows hrows).1,
          (jsMapE_rowOfE_ok ps rows hrows).2, ?_⟩
  · simp [handleGenerateSynthetic, Bind.bind, Except.bind, hAI, JVal.get, hps, hrows]
  · intro p
    have hbp : (rowOf p).get "blood_pressure" = jsOr (p.get "blood_pressure") JVal.null :=
      rfl
    have hhr : (rowOf p).get "heart_rate" = jsOr (p.get "heart_rate") JVal.null := rfl
    have hte : (rowOf p).get "temperature" = jsOr (p.get "temperature") JVal.null := rfl
    have hpe : (rowOf p).get "pre_existing_conditions"
        = jsOr (p.get "pre_existing_conditions") (JVal.arr []) := rfl
    refine ⟨fun h => ?_, fun h => ?_, fun h => ?_, fun h => ?_⟩
    · rw [hbp, isUndef_eq h]; rfl
    · rw [hhr, isUndef_eq h]; rfl
    · rw [hte, isUndef_eq h]; rfl
    · rw [hpe, isUndef_eq h]; rfl

theorem generateSynthetic_rows_witness :
    handleGenerateSynthetic
        ⟨200, some (Except.ok (JVal.obj [("patients",
          JVal.arr [JVal.obj [("age", JVal.num 40)], JVal.obj []])]))⟩ none
      = Except.ok ([JVal.obj [("age", JVal.num 40)], JVal.obj []].map rowOf,
          JVal.obj [("success", JVal.bool true), ("count", JVal.num 2)]) :=
  (generateSynthetic_rows ⟨200, some (Except.ok (JVal.obj [("patients",
      JVal.arr [JVal.obj [("age", JVal.num 40)], JVal.obj []])]))⟩
    [("patients", JVal.arr [JVal.obj [("age", JVal.num 40)], JVal.obj []])]
    [JVal.obj [("age", JVal.num 40)], JVal.obj []]
    ([JVal.obj [("age", JVal.num 40)], JVal.obj []].map rowOf)
    (by decide) rfl rfl rfl).1

/-- C9: a triage request whose patient has no `symptoms` key throws on
`patient.symptoms.join` before the gateway is consulted — the response is
the same for every environment — and the service answers 500 with a JSON
error body. -/
theorem triage_missingSymptoms (p : JVal) (fp : String) (env : Env)
    (h : p.get "symptoms" = JVal.undefined) :
    serveHandler ⟨"triage", p, fp⟩ env
      = ⟨500, JVal.obj [("error",
          JVal.str "Cannot read properties of undefined (reading join)")]⟩ := by
  have hpr : triagePrompt p
      = Except.error "Cannot read properties of undefined (reading join)" := by
    simp [triagePrompt, Bind.bind, Except.bind, jsJoinE, h]
  have hst : statusFromError "Cannot read properties of undefined (reading join)"
      = 500 := by decide
  simp [serveHandler, dispatch, handleTriage, Bind.bind, Except.bind, hpr, hst]

theorem triage_missingSymptoms_witness :
    serveHandler ⟨"triage", JVal.obj [("age", JVal.num 50)], ""⟩
        ⟨⟨200, some (Except.ok JVal.null)⟩, Except.ok [], none⟩
      = ⟨500, JVal.obj [("error",
          JVal.str "Cannot read properties of undefined (reading join)")]⟩ :=
  triage_missingSymptoms (JVal.obj [("age", JVal.num 50)]) ""
    ⟨⟨200, some (Except.ok JVal.null)⟩, Except.ok [], none⟩ rfl

/-- C10: present-but-falsy optional fields behave like absent ones — a
zero heart rate or temperature, or an empty blood-pressure string, yields
no triage prompt line, and in generate-synthetic a zero heart rate or
temperature is stored as `null`. -/
theorem falsyFieldsAsAbsent (p : JVal) :
    (p.get "heart_rate" = JVal.num 0 →
      hrPiece p = "" ∧ (rowOf p).get "heart_rate" = JVal.null)
    ∧ (p.get "temperature" = JVal.num 0 →
      tempPiece p = "" ∧ (rowOf p).get "temperature" = JVal.null)
    ∧ (p.get "blood_pressure" = JVal.str "" → bpPiece p = "") := by
  have hhr : (rowOf p).get "heart_rate" = jsOr (p.get "heart_rate") JVal.null := rfl
  have hte : (rowOf p).get "temperature" = jsOr (p.get "temperature") JVal.null := rfl
  refine ⟨fun h => ⟨?_, ?_⟩, fun h => ⟨?_, ?_⟩, fun h => ?_⟩
  · simp [hrPiece, h, JVal.truthy]
  · rw [hhr, h]; rfl
  · simp [tempPiece, h, JVal.truthy]
  · rw [hte, h]; rfl
  · simp [bpPiece, h, JVal.truthy]

theorem falsyFieldsAsAbsent_witness :
    hrPiece (JVal.obj [("heart_rate", JVal.num 0)]) = ""
    ∧ (rowOf (JVal.obj [("heart_rate", JVal.num 0)])).get "heart_rate" = JVal.null
    ∧ tempPiece (JVal.obj [("temperature", JVal.num 0)]) = ""
    ∧ bpPiece (JVal.obj [("blood_pressure", JVal.str "")]) = "" :=
  ⟨((falsyFieldsAsAbsent (JVal.obj [("heart_rate", JVal.num 0)])).1 rfl).1,
   ((falsyFieldsAsAbsent (JVal.obj [("heart_rate", JVal.num 0)])).1 rfl).2,
   ((falsyFieldsAsAbsent (JVal.obj [("temperature", JVal.num 0)])).2.1 rfl).1,
   (falsyFieldsAsAbsent (JVal.obj [("blood_pressure", JVal.str "")])).2.2 rfl⟩

set_option maxRecDepth 40000 in
/-- C4 counterexample: `cexPatient` carries a present `heart_rate` key
(value 0, hence not `undefined`), yet its triage prompt — which is built
successfully — contains no heart-rate line, refuting the claim that every
present optional field gets a line. -/
theorem triagePrompt_presentField_cex :
    (cexPatient.get "heart_rate").isUndef = false
    ∧ (triagePrompt cexPatient).toOption.getD "" ≠ ""
    ∧ jsIncludes ((triagePrompt cexPatient).toOption.getD "") "- Heart Rate" = false := by
  refine ⟨by decide, by decide, by decide⟩

/-- C4 (amended): the triage prompt is the fixed header followed by the
five optional segments; a segment is the field's line exactly when the
field's value is truthy (for pre-existing conditions: when its `length`
is truthy) and is empty otherwise. -/
theorem triagePrompt_optionalLines (p : JVal) (symStr pecStr : String)
    (hsym : jsJoinE (p.get "symptoms") ", " = Except.ok symStr)
    (hpec : pecPieceE p = Except.ok pecStr) :
    triagePrompt p = Except.ok (triageHeader p symStr
      ++ "\n" ++ addlPiece p ++ "\n" ++ bpPiece p ++ "\n" ++ hrPiece p
      ++ "\n" ++ tempPiece p ++ "\n" ++ pecStr
      ++ "\n\nProvide your analysis using the triage_result function.")
    ∧ ((p.get "symptoms_text").truthy = true →
        addlPiece p = "- Additional symptoms: " ++ (p.get "symptoms_text").toJSString)
    ∧ ((p.get "symptoms_text").truthy = false → addlPiece p = "")
    ∧ ((p.get "blood_pressure").truthy = true →
        bpPiece p = "- Blood Pressure: " ++ (p.get "blood_pressure").toJSString)
    ∧ ((p.get "blood_pressure").truthy = false → bpPiece p = "")
    ∧ ((p.get "heart_rate").truthy = true →
        hrPiece p = "- Heart Rate: " ++ (p.get "heart_rate").toJSString ++ " bpm")
    ∧ ((p.get "heart_rate").truthy = false → hrPiece p = "")
    ∧ ((p.get "temperature").truthy = true →
        tempPiece p = "- Temperature: " ++ (p.get "temperature").toJSString ++ "Â°F")
    ∧ ((p.get "temperature").truthy = false → tempPiece p = "")
    ∧ ((lengthProp (p.get "pre_existing_conditions")).truthy = false → pecStr = "")
    ∧ (∀ xs, p.get "pre_existing_conditions" = JVal.arr xs →
        (lengthProp (p.get "pre_existing_conditions")).truthy = true →
        pecStr = "- Pre-existing Conditions: "
          ++ String.intercalate ", " (xs.map jsJoinElem)) := by
  refine ⟨by simp [triagePrompt, Bind.bind, Except.bind, hsym, hpec],
          fun h => by simp [addlPiece, h],
          fun h => by simp [addlPiece, h],
          fun h => by simp [bpPiece, h],
          fun h => by simp [bpPiece, h],
          fun h => by simp [hrPiece, h],
          fun h => by simp [hrPiece, h],
          fun h => by simp [tempPiece, h],
          fun h => by simp [tempPiece, h],
          fun h => ?_, fun xs harr h => ?_⟩
  · rw [pecPieceE, h] at hpec
    simpa using hpec.symm
  · rw [pecPieceE, h, harr] at hpec
    simp [jsJoinE, Except.map] at hpec
    exact hpec.symm

theorem triagePrompt_optionalLines_witness :
    addlPiece (JVal.obj [("symptoms", JVal.arr []), ("symptoms_text", JVal.str "dizzy")])
      = "- Additional symptoms: dizzy"
    ∧ bpPiece (JVal.obj [("symptoms", JVal.arr [])]) = ""
    ∧ hrPiece (JVal.obj [("symptoms", JVal.arr []), ("heart_rate", JVal.num 88)])
      = "- Heart Rate: 88 bpm" :=
  ⟨(triagePrompt_optionalLines
      (JVal.obj [("symptoms", JVal.arr []), ("symptoms_text", JVal.str "dizzy")])
      "" "" rfl rfl).2.1 (by decide),
   (triagePrompt_optionalLines (JVal.obj [("symptoms", JVal.arr [])]) "" ""
      rfl rfl).2.2.2.2.1 (by decide),
   (triagePrompt_optionalLines
      (JVal.obj [("symptoms", JVal.arr []), ("heart_rate", JVal.num 88)]) "" ""
      rfl rfl).2.2.2.2.2.1 (by decide)⟩

/-- C5 counterexample: the unknown action "Rate limit" is answered with
status 429, not 500, because the thrown "Unknown action: Rate limit"
message matches the rate-limit substring test. -/
theorem unknownAction_cex :
    serveHandler ⟨"Rate limit", JVal.undefined, ""⟩ ⟨⟨200, none⟩, Except.ok [], none⟩
      = ⟨429, JVal.obj [("error", JVal.str "Unknown action: Rate limit")]⟩
    ∧ ("Rate limit" : String) ≠ "triage"
    ∧ ("Rate limit" : String) ≠ "parse-document"
    ∧ ("Rate limit" : String) ≠ "generate-synthetic"
    ∧ (429 : Nat) ≠ 500 :=
  ⟨rfl, by decide, by decide, by decide, by decide⟩

/-- C5 (amended): a request whose action is none of the three known ones
is answered with `{error: "Unknown action: <action>"}` — the error names
the action — and status 500, unless the action text itself makes the
message contain "Rate limit" (then 429) or "Payment" (then 402). -/
theorem unknownAction_response (a : String) (p : JVal) (fp : String) (env : Env)
    (h1 : a ≠ "triage") (h2 : a ≠ "parse-document") (h3 : a ≠ "generate-synthetic")
    (hr : jsIncludes ("Unknown action: " ++ a) "Rate limit" = false)
    (hp : jsIncludes ("Unknown action: " ++ a) "Payment" = false) :
    serveHandler ⟨a, p, fp⟩ env
      = ⟨500, JVal.obj [("error", JVal.str ("Unknown action: " ++ a))]⟩
    ∧ jsIncludes ("Unknown action: " ++ a) a = true := by
  refine ⟨?_, jsIncludes_append_self _ _⟩
  simp [serveHandler, dispatch, h1, h2, h3, statusFromError, hr, hp]

theorem unknownAction_response_witness :
    serveHandler ⟨"frobnicate", JVal.undefined, ""⟩ ⟨⟨200, none⟩, Except.ok [], none⟩
      = ⟨500, JVal.obj [("error", JVal.str ("Unknown action: " ++ "frobnicate"))]⟩ :=
  (unknownAction_response "frobnicate" JVal.undefined ""
    ⟨⟨200, none⟩, Except.ok [], none⟩
    (by decide) (by decide) (by decide) (by decide) (by decide)).1
